import Mathlib

/-!
Verification development for the To-Do Planner and Manager application
(`app.py`).  The recurrence expander (`auto_populate_recurrences`), the
score aggregator (`compute_scores`), the signup flow and the password
hashing helpers are embedded shallowly below, and the documented
properties of the system are proved about the embedding.

Modelling conventions:
* Calendar dates (`datetime.date` / `pandas.Timestamp` truncated to a
  day, as the source compares `next_start.date() > until.date()`) are
  a `Date` structure of year / month / day with lexicographic order.
* `pd.Timedelta(days=1)` / `pd.Timedelta(weeks=1)` / `pd.DateOffset(months=1)`
  become `addOneDay`, `addDays _ 7` and `addMonths1`; the month offset
  clamps the day-of-month to the length of the target month, exactly as
  pandas does.
* Python floats are modelled by exact rationals `ℚ`; `round(x, 2)` is
  round-half-to-even at two decimals, Python's rounding mode.
* The wall clock read by `pd.to_datetime("today")` becomes an explicit
  `today : Date` argument.
-/

/-- A calendar date, mirroring `datetime.date`. -/
structure Date where
  year : Nat
  month : Nat
  day : Nat
deriving DecidableEq, Repr

/-- Gregorian leap-year test. -/
def isLeap (y : Nat) : Bool :=
  (y % 4 == 0 && y % 100 != 0) || y % 400 == 0

/-- Number of days of month `m` of year `y` (months outside 1..12 are
irrelevant for valid dates; the catch-all branch returns 31). -/
def daysInMonth (y m : Nat) : Nat :=
  if m = 2 then (if isLeap y then 29 else 28)
  else if m = 4 ∨ m = 6 ∨ m = 9 ∨ m = 11 then 30
  else 31

/-- A well-formed calendar date, as produced by `st.date_input` and
accepted by `pd.to_datetime`. -/
def Date.Valid (d : Date) : Prop :=
  1 ≤ d.month ∧ d.month ≤ 12 ∧ 1 ≤ d.day ∧ d.day ≤ daysInMonth d.year d.month

instance (d : Date) : Decidable d.Valid := by
  unfold Date.Valid; infer_instance

/-- Strict lexicographic (= chronological) order on dates. -/
def Date.lt (a b : Date) : Prop :=
  a.year < b.year ∨
    (a.year = b.year ∧
      (a.month < b.month ∨ (a.month = b.month ∧ a.day < b.day)))

instance (a b : Date) : Decidable (Date.lt a b) := by
  unfold Date.lt; infer_instance

/-- Non-strict chronological order on dates. -/
def Date.le (a b : Date) : Prop := a = b ∨ Date.lt a b

instance (a b : Date) : Decidable (Date.le a b) := by
  unfold Date.le; infer_instance

theorem Date.lt_trans {a b c : Date} (h1 : Date.lt a b) (h2 : Date.lt b c) :
    Date.lt a c := by
  unfold Date.lt at *
  rcases h1 with h1 | ⟨e1, h1⟩ <;> rcases h2 with h2 | ⟨e2, h2⟩
  · exact Or.inl (Nat.lt_trans h1 h2)
  · exact Or.inl (e2 ▸ h1)
  · exact Or.inl (e1 ▸ h2)
  · refine Or.inr ⟨e1.trans e2, ?_⟩
    rcases h1 with h1 | ⟨f1, h1⟩ <;> rcases h2 with h2 | ⟨f2, h2⟩
    · exact Or.inl (Nat.lt_trans h1 h2)
    · exact Or.inl (f2 ▸ h1)
    · exact Or.inl (f1 ▸ h2)
    · exact Or.inr ⟨f1.trans f2, Nat.lt_trans h1 h2⟩

theorem Date.lt_irrefl (a : Date) : ¬ Date.lt a a := by
  unfold Date.lt; omega

theorem Date.not_le_of_lt {a b : Date} (h : Date.lt b a) : ¬ Date.le a b := by
  rintro (rfl | hab)
  · exact Date.lt_irrefl a h
  · exact Date.lt_irrefl a (Date.lt_trans hab h)

/-- `date + pd.Timedelta(days=1)`. -/
def addOneDay (d : Date) : Date :=
  if d.day < daysInMonth d.year d.month then ⟨d.year, d.month, d.day + 1⟩
  else if d.month < 12 then ⟨d.year, d.month + 1, 1⟩
  else ⟨d.year + 1, 1, 1⟩

/-- `date + pd.Timedelta(days=n)`. -/
def addDays (d : Date) : Nat → Date
  | 0 => d
  | n + 1 => addOneDay (addDays d n)

/-- `date + pd.DateOffset(months=1)`: advance the month and clamp the
day-of-month to the length of the target month (pandas semantics:
Jan 31 + 1 month = Feb 29 in a leap year). -/
def addMonths1 (d : Date) : Date :=
  if d.month < 12 then
    ⟨d.year, d.month + 1, min d.day (daysInMonth d.year (d.month + 1))⟩
  else
    ⟨d.year + 1, 1, min d.day (daysInMonth (d.year + 1) 1)⟩

theorem daysInMonth_le (y m : Nat) : daysInMonth y m ≤ 31 := by
  unfold daysInMonth
  split_ifs <;> omega

theorem daysInMonth_pos (y m : Nat) : 1 ≤ daysInMonth y m := by
  unfold daysInMonth
  split_ifs <;> omega

theorem addOneDay_lt (d : Date) : Date.lt d (addOneDay d) := by
  unfold addOneDay Date.lt
  split_ifs <;> dsimp only <;> omega

theorem addMonths1_lt (d : Date) : Date.lt d (addMonths1 d) := by
  unfold addMonths1 Date.lt
  split_ifs <;> dsimp only <;> omega

theorem addDays_lt (d : Date) (n : Nat) (hn : 1 ≤ n) :
    Date.lt d (addDays d n) := by
  induction n with
  | zero => omega
  | succ k ih =>
    cases Nat.eq_zero_or_pos k with
    | inl h => subst h; simpa [addDays] using addOneDay_lt d
    | inr h => exact Date.lt_trans (ih h) (addOneDay_lt (addDays d k))

theorem addOneDay_valid {d : Date} (h : d.Valid) : (addOneDay d).Valid := by
  obtain ⟨h1, h2, h3, h4⟩ := h
  have hp1 := daysInMonth_pos d.year (d.month + 1)
  have hp2 := daysInMonth_pos (d.year + 1) 1
  unfold addOneDay
  split_ifs with hd hm <;> refine ⟨?_, ?_, ?_, ?_⟩ <;> dsimp only <;> omega

theorem addDays_valid {d : Date} (h : d.Valid) (n : Nat) :
    (addDays d n).Valid := by
  induction n with
  | zero => exact h
  | succ k ih => exact addOneDay_valid ih

theorem addMonths1_valid {d : Date} (h : d.Valid) : (addMonths1 d).Valid := by
  obtain ⟨h1, h2, h3, h4⟩ := h
  have hp1 := daysInMonth_pos d.year (d.month + 1)
  have hp2 := daysInMonth_pos (d.year + 1) 1
  unfold addMonths1
  split_ifs with hm <;> refine ⟨?_, ?_, ?_, ?_⟩ <;> dsimp only <;> omega

/-- Linear key used as a termination measure; chronologically monotone
on valid dates (month ≤ 12 < 16, day ≤ 31 < 32). -/
def dateKey (d : Date) : Nat := 512 * d.year + 32 * d.month + d.day

theorem dateKey_lt_of_lt {a b : Date} (ha : a.Valid) (h : Date.lt a b) :
    dateKey a < dateKey b := by
  obtain ⟨h1, h2, h3, h4⟩ := ha
  have h31 : a.day ≤ 31 := le_trans h4 (daysInMonth_le _ _)
  unfold dateKey
  rcases h with h | ⟨e, h | ⟨f, h⟩⟩ <;> omega

theorem dateKey_le_of_le {a b : Date} (ha : a.Valid) (h : Date.le a b) :
    dateKey a ≤ dateKey b := by
  rcases h with rfl | h
  · exact le_refl _
  · exact le_of_lt (dateKey_lt_of_lt ha h)

/-!
## Recurrence expander (`auto_populate_recurrences`, app.py lines 455-487)

The Python loop advances `next_start` / `next_end` by the rule's step,
breaks once `next_start.date() > until.date()`, and otherwise executes
one `INSERT` per generated row.  The loop body is embedded with an
explicit fuel argument; `gapFuel` is a proven-sufficient bound, so the
fuel-stability theorem below is the termination argument.
-/

/-- The recurrence rules of the `selectbox` other than the string
`"None"` (which is modelled as `Option.none`). -/
inductive Rule where
  | Daily
  | Weekly
  | Monthly
deriving DecidableEq, Repr

/-- One step of the loop: `pd.Timedelta(days=1)`, `pd.Timedelta(weeks=1)`
or `pd.DateOffset(months=1)` (app.py lines 465-473). -/
def stepDate : Rule → Date → Date
  | .Daily, d => addOneDay d
  | .Weekly, d => addDays d 7
  | .Monthly, d => addMonths1 d

theorem stepDate_lt (r : Rule) (d : Date) : Date.lt d (stepDate r d) := by
  cases r with
  | Daily => exact addOneDay_lt d
  | Weekly => exact addDays_lt d 7 (by omega)
  | Monthly => exact addMonths1_lt d

theorem stepDate_valid (r : Rule) {d : Date} (h : d.Valid) :
    (stepDate r d).Valid := by
  cases r with
  | Daily => exact addOneDay_valid h
  | Weekly => exact addDays_valid h 7
  | Monthly => exact addMonths1_valid h

theorem stepDate_key_lt (r : Rule) {d : Date} (h : d.Valid) :
    dateKey d < dateKey (stepDate r d) :=
  dateKey_lt_of_lt h (stepDate_lt r d)

/-- The `while True` body of `auto_populate_recurrences`, with fuel.
Each iteration advances both dates, breaks when
`next_start.date() > until.date()`, and otherwise emits the new
(start, end) pair. -/
def expandLoopF (r : Rule) (untl : Date) : Nat → Date → Date → List (Date × Date)
  | 0, _, _ => []
  | fuel + 1, curStart, curEnd =>
    let nextStart := stepDate r curStart
    let nextEnd := stepDate r curEnd
    if Date.le nextStart untl then
      (nextStart, nextEnd) :: expandLoopF r untl fuel nextStart nextEnd
    else []

/-- Fuel that provably suffices for the loop to reach its `break`. -/
def gapFuel (untl s : Date) : Nat := (1 + dateKey untl) - dateKey s

/-- The (start, end) pairs of the rows the expansion loop generates from
seed dates `s`, `e` up to the cutoff `untl`. -/
def expandPairs (r : Rule) (untl s e : Date) : List (Date × Date) :=
  expandLoopF r untl (gapFuel untl s) s e

theorem expandLoopF_fuel_eq (r : Rule) {untl : Date} :
    ∀ (f g : Nat) (cs ce : Date), cs.Valid →
      gapFuel untl cs ≤ f → gapFuel untl cs ≤ g →
      expandLoopF r untl f cs ce = expandLoopF r untl g cs ce := by
  intro f
  induction f with
  | zero =>
    intro g cs ce hcs hf hg
    -- fuel bound 0 means the key of `cs` already exceeds the cutoff key
    have hover : dateKey untl < dateKey cs := by
      unfold gapFuel at hf; omega
    have hnle : ¬ Date.le (stepDate r cs) untl := by
      intro hle
      have h1 := dateKey_le_of_le (stepDate_valid r hcs) hle
      have h2 := stepDate_key_lt r hcs
      omega
    cases g with
    | zero => rfl
    | succ g' => simp [expandLoopF, hnle]
  | succ f' ih =>
    intro g cs ce hcs hf hg
    by_cases hle : Date.le (stepDate r cs) untl
    · have hkey := dateKey_le_of_le (stepDate_valid r hcs) hle
      have hstep := stepDate_key_lt r hcs
      have hgap : gapFuel untl cs ≥ 2 := by unfold gapFuel; omega
      cases g with
      | zero => omega
      | succ g' =>
        have hrec := ih g' (stepDate r cs) (stepDate r ce)
          (stepDate_valid r hcs)
          (by unfold gapFuel at *; omega) (by unfold gapFuel at *; omega)
        simp only [expandLoopF, if_pos hle]
        exact congrArg _ hrec
    · cases g with
      | zero =>
        have hkey := stepDate_key_lt r hcs
        unfold gapFuel at hg
        -- g = 0 forces the cutoff key below `cs`; both sides are empty
        simp [expandLoopF, hle]
      | succ g' => simp [expandLoopF, hle]

/-!
## Task rows and the persistence layer

`TaskRow` carries exactly the fifteen columns named by both task
`INSERT` statements (app.py lines 481-482 and 605-606); the remaining
columns (`id`, `admin_comments`, timestamps, `actual_hours`) are filled
by SQLite defaults identically for every row and play no part in the
claims.  `series_id` is stored as `Option Nat`: the source stores
`str(uuid.uuid4())` or SQL NULL, and a UUID is modelled as an opaque
numeric identifier.
-/

structure TaskRow where
  task : String
  assigned_to : String
  given_by : String
  priority : String
  status : String
  start_date : Date
  end_date : Date
  progress : Nat
  comments : String
  recurrence : Option Rule
  recurrence_until : Option Date
  series_id : Option Nat
  category : String
  tags : Option String
  estimated_hours : Nat
deriving DecidableEq, Repr

/-- The column list shared by the two task `INSERT` statements
(app.py lines 481-482 and 605-606). -/
def taskInsertColumns : List String :=
  ["task", "assigned_to", "given_by", "priority", "status",
   "start_date", "end_date", "progress", "comments",
   "recurrence", "recurrence_until", "series_id",
   "category", "tags", "estimated_hours"]

/-- The number of `?` marks in the `VALUES (…)` clause of both task
`INSERT` statements (app.py lines 483 and 607). -/
def taskInsertPlaceholders : Nat := 14

/-- `cursor.execute` of a task `INSERT`: SQLite rejects the statement at
prepare time when the column list and the `VALUES` row have different
lengths, raising `sqlite3.OperationalError`. -/
def execTaskInsert (tbl : List TaskRow) (row : TaskRow) :
    Except String (List TaskRow) :=
  if taskInsertColumns.length = taskInsertPlaceholders then
    Except.ok (tbl ++ [row])
  else
    Except.error "14 values for 15 columns"

/-- Run the per-row inserts of the expansion loop in order; an exception
aborts the run, keeping the rows inserted so far (each row is committed
independently). -/
def insertAll (tbl : List TaskRow) :
    List TaskRow → List TaskRow × Option String
  | [] => (tbl, none)
  | row :: rest =>
    match execTaskInsert tbl row with
    | Except.ok tbl2 => insertAll tbl2 rest
    | Except.error e => (tbl, some e)

/-- The parameters of `auto_populate_recurrences` (app.py line 455). -/
structure RecArgs where
  task : String
  assigned_to : String
  given_by : String
  priority : String
  status : String
  start_date : Date
  end_date : Date
  progress : Nat
  comments : String
  recurrence : Option Rule
  recurrence_until : Option Date
  series_id : Option Nat
  category : String
  tags : Option String
  estimated_hours : Nat
deriving DecidableEq, Repr

/-- The row the loop body inserts for the generated pair of dates
(app.py lines 480-486): status is the literal `"Not Started"`, progress
the literal `0`, start/end are the advanced dates, every other column is
the corresponding argument. -/
def mkRecRow (a : RecArgs) (p : Date × Date) : TaskRow :=
  { task := a.task
    assigned_to := a.assigned_to
    given_by := a.given_by
    priority := a.priority
    status := "Not Started"
    start_date := p.1
    end_date := p.2
    progress := 0
    comments := a.comments
    recurrence := a.recurrence
    recurrence_until := a.recurrence_until
    series_id := a.series_id
    category := a.category
    tags := a.tags
    estimated_hours := a.estimated_hours }

/-- The rows the expansion loop builds and tries to insert: none when
`recurrence == "None"` or `recurrence_until` is falsy (app.py line 458),
otherwise one row per generated date pair. -/
def expansionCandidates (a : RecArgs) : List TaskRow :=
  match a.recurrence, a.recurrence_until with
  | some r, some u =>
    (expandPairs r u a.start_date a.end_date).map (mkRecRow a)
  | _, _ => []

/-- `auto_populate_recurrences` end to end: the rows actually persisted
into the (initially given) table slice, and the exception message if a
`cursor.execute` raised. -/
def auto_populate_recurrences (a : RecArgs) :
    List TaskRow × Option String :=
  insertAll [] (expansionCandidates a)

/-!
## Task creation (`show_task_management` submit branch, app.py 602-620)
-/

/-- The add-task form fields (app.py lines 583-599). -/
structure FormInput where
  task : String
  given_by : String
  category : String
  tags : Option String
  priority : String
  status : String
  start_date : Date
  end_date : Date
  progress : Nat
  estimated_hours : Nat
  comments : String
  recurrence : Option Rule
  recurrence_until : Option Date
deriving DecidableEq, Repr

/-- `series_id = str(uuid.uuid4()) if recurrence != "None" else None`
(app.py line 603); `fresh` stands for the freshly drawn UUID. -/
def seriesIdFor (f : FormInput) (fresh : Nat) : Option Nat :=
  match f.recurrence with
  | none => none
  | some _ => some fresh

/-- The seed row inserted by the submit branch (app.py lines 604-611):
status and progress are the user's form values. -/
def mkSeedRow (username : String) (f : FormInput) (sid : Option Nat) :
    TaskRow :=
  { task := f.task
    assigned_to := username
    given_by := f.given_by
    priority := f.priority
    status := f.status
    start_date := f.start_date
    end_date := f.end_date
    progress := f.progress
    comments := f.comments
    recurrence := f.recurrence
    recurrence_until := f.recurrence_until
    series_id := sid
    category := f.category
    tags := f.tags
    estimated_hours := f.estimated_hours }

/-- The `RecArgs` of the `auto_populate_recurrences` call at app.py
lines 615-620. -/
def recArgsOfForm (username : String) (f : FormInput) (sid : Option Nat) :
    RecArgs :=
  { task := f.task
    assigned_to := username
    given_by := f.given_by
    priority := f.priority
    status := f.status
    start_date := f.start_date
    end_date := f.end_date
    progress := f.progress
    comments := f.comments
    recurrence := f.recurrence
    recurrence_until := f.recurrence_until
    series_id := sid
    category := f.category
    tags := f.tags
    estimated_hours := f.estimated_hours }

/-- All rows of one series as the submit branch constructs them: the
seed row plus the rows the expander generates from it. -/
def createdSeriesRows (username : String) (f : FormInput)
    (sid : Option Nat) : List TaskRow :=
  mkSeedRow username f sid ::
    expansionCandidates (recArgsOfForm username f sid)

/-!
## Score aggregator (`compute_scores`, app.py lines 147-191)

Python floats are modelled as exact rationals; `round(x, 2)` is Python's
round-half-to-even at two decimal places.  `pd.to_datetime("today")`
becomes the explicit `today` argument (the comparison granularity is one
day, matching the stored ISO date strings).
-/

/-- Python's `round` to an integer: nearest, ties to even. -/
def roundHalfEven (q : ℚ) : ℤ :=
  let f : ℤ := q.floor
  let r : ℚ := q - (f : ℚ)
  if r < 1 / 2 then f
  else if 1 / 2 < r then f + 1
  else if f % 2 = 0 then f else f + 1

/-- Python's `round(x, 2)`. -/
def round2 (q : ℚ) : ℚ := (roundHalfEven (q * 100) : ℚ) / 100

/-- The dictionary returned by `compute_scores` (app.py lines 181-191). -/
structure Metrics where
  totalTasks : Nat
  completed : Nat
  overdue : Nat
  highPriority : Nat
  completionRate : ℚ
  ontimeRate : ℚ
  overdueRate : ℚ
  avgProgress : ℚ
  efficiencyScore : ℚ
deriving DecidableEq, Repr

/-- The body of `compute_scores` applied to the already-filtered
dataframe `df_user` (app.py lines 153-191). -/
def aggOf (df : List TaskRow) (today : Date) : Option Metrics :=
  if df.isEmpty then none
  else
    let total : Nat := df.length
    let completed : Nat := (df.filter (fun t => t.status == "Completed")).length
    let overdue : Nat :=
      (df.filter (fun t =>
        t.status != "Completed" && decide (Date.lt t.end_date today))).length
    let high_priority : Nat := (df.filter (fun t => t.priority == "High")).length
    let completed_tasks := df.filter (fun t => t.status == "Completed")
    let on_time : Nat :=
      (completed_tasks.filter (fun t =>
        decide (Date.le t.start_date t.end_date))).length
    let avg_progress : ℚ :=
      if 0 < total then ((df.map (fun t => (t.progress : ℚ))).sum) / total else 0
    let completion_rate : ℚ :=
      if 0 < total then ((completed : ℚ) / total) * 100 else 0
    let ontime_rate : ℚ :=
      if 0 < total then ((on_time : ℚ) / total) * 100 else 0
    let overdue_rate : ℚ :=
      if 0 < total then ((overdue : ℚ) / total) * 100 else 0
    let score : ℚ := round2
      (0.4 * completion_rate + 0.25 * ontime_rate +
        0.2 * avg_progress - 0.15 * overdue_rate)
    some
      { totalTasks := total
        completed := completed
        overdue := overdue
        highPriority := high_priority
        completionRate := completion_rate
        ontimeRate := ontime_rate
        overdueRate := overdue_rate
        avgProgress := avg_progress
        efficiencyScore := max 0 score }

/-- The `SELECT` at the top of `compute_scores` (app.py lines 148-151):
the whole table, or the rows assigned to one user. -/
def filterOf (db : List TaskRow) (username : Option String) : List TaskRow :=
  match username with
  | some u => db.filter (fun t => t.assigned_to == u)
  | none => db

def compute_scores (db : List TaskRow) (username : Option String)
    (today : Date) : Option Metrics :=
  aggOf (filterOf db username) today

/-!
## Credential store and signup (app.py lines 74-81, 822-850)

The `users` table has `username TEXT UNIQUE`; a duplicate insert makes
SQLite raise `IntegrityError`, which the Sign Up branch catches and
turns into the "Username already exists." message.  A UserRow models
one row of `users` (the auto id column is immaterial).
-/

structure UserRow where
  username : String
  password : String
  role : String
deriving DecidableEq, Repr

/-- `INSERT INTO users (username, password, role) VALUES (?, ?, ?)`
against the UNIQUE constraint on `username`. -/
def usersInsert (tbl : List UserRow) (u p r : String) :
    Except String (List UserRow) :=
  if tbl.any (fun row => row.username == u) then
    Except.error "UNIQUE constraint failed: users.username"
  else
    Except.ok (tbl ++ [{ username := u, password := p, role := r }])

/-- The user-visible outcome of the Sign Up button handler
(app.py lines 827-837). -/
inductive SignupOutcome where
  | missingFields
  | created
  | alreadyExists
deriving DecidableEq, Repr

/-!
## Password hashing (`make_hash` / `check_hash`, app.py lines 61-65)

`hashlib.sha256(password.encode()).hexdigest()` is embedded as a full
SHA-256 (FIPS 180-4) over the UTF-8 bytes of the password, with 32-bit
words as naturals reduced mod 2^32.
-/

/-- Reduce to a 32-bit word. -/
def w32 (n : Nat) : Nat := n % 4294967296

/-- Right rotation of a 32-bit word. -/
def rotr32 (x n : Nat) : Nat := w32 ((x >>> n) ||| (x <<< (32 - n)))

/-- The first 64 primes. -/
def firstPrimes64 : List Nat :=
  [2, 3, 5, 7, 11, 13, 17, 19, 23, 29, 31, 37, 41, 43, 47, 53,
   59, 61, 67, 71, 73, 79, 83, 89, 97, 101, 103, 107, 109, 113, 127, 131,
   137, 139, 149, 151, 157, 163, 167, 173, 179, 181, 191, 193, 197, 199, 211, 223,
   227, 229, 233, 239, 241, 251, 257, 263, 269, 271, 277, 281, 283, 293, 307, 311]

/-- Integer cube root by binary search (fuel-bounded; the invariant is
lo^3 <= n < hi^3). -/
def cbrtGo : Nat -> Nat -> Nat -> Nat -> Nat
  | 0, _, lo, _ => lo
  | f + 1, n, lo, hi =>
    if hi <= lo + 1 then lo
    else
      let mid := (lo + hi) / 2
      if mid * mid * mid <= n then cbrtGo f n mid hi else cbrtGo f n lo mid

def natCbrt (n : Nat) : Nat := cbrtGo 200 n 0 (n + 1)

/-- Integer square root by binary search (fuel-bounded). -/
def sqrtGo : Nat -> Nat -> Nat -> Nat -> Nat
  | 0, _, lo, _ => lo
  | f + 1, n, lo, hi =>
    if hi <= lo + 1 then lo
    else
      let mid := (lo + hi) / 2
      if mid * mid <= n then sqrtGo f n mid hi else sqrtGo f n lo mid

def natSqrtB (n : Nat) : Nat := sqrtGo 200 n 0 (n + 1)

/-- The 64 SHA-256 round constants (FIPS 180-4 section 4.2.2), written
in decimal; `sha256K_derived` below checks them against their
definition as cube-root fractional parts. -/
def sha256K : List Nat :=
  [1116352408, 1899447441, 3049323471, 3921009573, 961987163, 1508970993,
   2453635748, 2870763221, 3624381080, 310598401, 607225278, 1426881987,
   1925078388, 2162078206, 2614888103, 3248222580, 3835390401, 4022224774,
   264347078, 604807628, 770255983, 1249150122, 1555081692, 1996064986,
   2554220882, 2821834349, 2952996808, 3210313671, 3336571891, 3584528711,
   113926993, 338241895, 666307205, 773529912, 1294757372, 1396182291,
   1695183700, 1986661051, 2177026350, 2456956037, 2730485921, 2820302411,
   3259730800, 3345764771, 3516065817, 3600352804, 4094571909, 275423344,
   430227734, 506948616, 659060556, 883997877, 958139571, 1322822218,
   1537002063, 1747873779, 1955562222, 2024104815, 2227730452, 2361852424,
   2428436474, 2756734187, 3204031479, 3329325298]

/-- The initial SHA-256 state (FIPS 180-4 section 5.3.3), in decimal;
`sha256H0_derived` below checks it against its square-root definition. -/
def sha256H0 : List Nat :=
  [1779033703, 3144134277, 1013904242, 2773480762, 1359893119, 2600822924,
   528734635, 1541459225]

set_option maxRecDepth 20000 in
/-- The round constants are the first 32 bits of the fractional parts
of the cube roots of the first 64 primes. -/
theorem sha256K_derived :
    sha256K = firstPrimes64.map (fun p => natCbrt (p <<< 96) % 4294967296) := by
  decide

set_option maxRecDepth 20000 in
/-- The initial state words are the first 32 bits of the fractional
parts of the square roots of the first 8 primes. -/
theorem sha256H0_derived :
    sha256H0 =
      (firstPrimes64.take 8).map (fun p => natSqrtB (p <<< 64) % 4294967296) := by
  decide

/-- `k` bytes of `n`, big endian. -/
def bytesBE (k n : Nat) : List Nat :=
  (List.range k).map (fun i => (n >>> (8 * (k - 1 - i))) % 256)

/-- SHA-256 padding: append 0x80, zero bytes up to 56 mod 64, then the
bit length in 8 bytes big endian. -/
def sha256Pad (msg : List Nat) : List Nat :=
  let L := msg.length
  let zeros := (119 - L % 64) % 64
  msg ++ [0x80] ++ List.replicate zeros 0 ++ bytesBE 8 (8 * L)

/-- Big-endian 32-bit words from a byte list. -/
def toWords : List Nat → List Nat
  | a :: b :: c :: d :: rest =>
    (((a * 256 + b) * 256 + c) * 256 + d) :: toWords rest
  | _ => []

/-- Append the next message-schedule word (w[i] from w[i-16], w[i-15],
w[i-7], w[i-2]). -/
def scheduleStep (acc : List Nat) : List Nat :=
  let n := acc.length
  let g := fun (k : Nat) => acc.getD (n - k) 0
  let s0 := Nat.xor (Nat.xor (rotr32 (g 15) 7) (rotr32 (g 15) 18)) ((g 15) >>> 3)
  let s1 := Nat.xor (Nat.xor (rotr32 (g 2) 17) (rotr32 (g 2) 19)) ((g 2) >>> 10)
  acc ++ [w32 (g 16 + s0 + g 7 + s1)]

/-- Extend the 16 chunk words to the 64-word schedule. -/
def sha256Extend : Nat → List Nat → List Nat
  | 0, acc => acc
  | n + 1, acc => sha256Extend n (scheduleStep acc)

/-- The working variables (a, b, c, d, e, f, g, h). -/
structure Sha256State where
  a : Nat
  b : Nat
  c : Nat
  d : Nat
  e : Nat
  f : Nat
  g : Nat
  h : Nat
deriving Repr

/-- One compression round. -/
def roundStep (st : Sha256State) (k w : Nat) : Sha256State :=
  let S1 := Nat.xor (Nat.xor (rotr32 st.e 6) (rotr32 st.e 11)) (rotr32 st.e 25)
  let ch := Nat.xor (Nat.land st.e st.f)
    (Nat.land (Nat.xor st.e 0xffffffff) st.g)
  let temp1 := w32 (st.h + S1 + ch + k + w)
  let S0 := Nat.xor (Nat.xor (rotr32 st.a 2) (rotr32 st.a 13)) (rotr32 st.a 22)
  let maj := Nat.xor (Nat.xor (Nat.land st.a st.b) (Nat.land st.a st.c))
    (Nat.land st.b st.c)
  let temp2 := w32 (S0 + maj)
  { a := w32 (temp1 + temp2), b := st.a, c := st.b, d := st.c,
    e := w32 (st.d + temp1), f := st.e, g := st.f, h := st.g }

/-- Run the 64 rounds over the constants and schedule. -/
def sha256Rounds : List Nat → List Nat → Sha256State → Sha256State
  | k :: ks, w :: ws, st => sha256Rounds ks ws (roundStep st k w)
  | _, _, st => st

/-- Compress one 16-word chunk into the running hash state. -/
def sha256Compress (h : List Nat) (chunk : List Nat) : List Nat :=
  let w := sha256Extend 48 chunk
  let st0 : Sha256State :=
    { a := h.getD 0 0, b := h.getD 1 0, c := h.getD 2 0, d := h.getD 3 0,
      e := h.getD 4 0, f := h.getD 5 0, g := h.getD 6 0, h := h.getD 7 0 }
  let st := sha256Rounds sha256K w st0
  [w32 (h.getD 0 0 + st.a), w32 (h.getD 1 0 + st.b),
   w32 (h.getD 2 0 + st.c), w32 (h.getD 3 0 + st.d),
   w32 (h.getD 4 0 + st.e), w32 (h.getD 5 0 + st.f),
   w32 (h.getD 6 0 + st.g), w32 (h.getD 7 0 + st.h)]

/-- Fold the chunks (`n` = number of 16-word chunks left). -/
def sha256Loop : Nat → List Nat → List Nat → List Nat
  | 0, h, _ => h
  | n + 1, h, ws => sha256Loop n (sha256Compress h (ws.take 16)) (ws.drop 16)

/-- The eight 32-bit words of the SHA-256 digest of a byte list. -/
def sha256Words (msg : List Nat) : List Nat :=
  let ws := toWords (sha256Pad msg)
  sha256Loop (ws.length / 16) sha256H0 ws

/-- Lower-case hex digit. -/
def hexDigit (n : Nat) : Char :=
  if n < 10 then Char.ofNat (48 + n) else Char.ofNat (87 + n)

/-- Eight hex digits of a 32-bit word, big endian. -/
def hexWord8 (n : Nat) : List Char :=
  (List.range 8).map (fun i => hexDigit ((n >>> (4 * (7 - i))) % 16))

/-- `hashlib.sha256(bytes).hexdigest()`. -/
def sha256Hex (msg : List Nat) : String :=
  String.mk (((sha256Words msg).map hexWord8).flatten)

/-- UTF-8 encoding of one character (`str.encode()` semantics). -/
def charUtf8 (ch : Char) : List Nat :=
  let n := ch.toNat
  if n < 0x80 then [n]
  else if n < 0x800 then [0xc0 + n / 64, 0x80 + n % 64]
  else if n < 0x10000 then
    [0xe0 + n / 4096, 0x80 + (n / 64) % 64, 0x80 + n % 64]
  else
    [0xf0 + n / 262144, 0x80 + (n / 4096) % 64,
     0x80 + (n / 64) % 64, 0x80 + n % 64]

/-- `password.encode()`: the UTF-8 bytes of a string. -/
def utf8Bytes (s : String) : List Nat := s.data.flatMap charUtf8

/-- `make_hash` (app.py lines 61-62). -/
def make_hash (password : String) : String := sha256Hex (utf8Bytes password)

/-- `check_hash` (app.py lines 64-65). -/
def check_hash (password hashed : String) : Bool := make_hash password == hashed

/-- The Sign Up button handler (app.py lines 827-837): empty username or
password is rejected first; otherwise the insert runs and an
`IntegrityError` becomes the "Username already exists." message. -/
def signup (tbl : List UserRow) (new_user new_pass new_role : String) :
    List UserRow × SignupOutcome :=
  if new_user = "" ∨ new_pass = "" then (tbl, SignupOutcome.missingFields)
  else
    match usersInsert tbl new_user (make_hash new_pass) new_role with
    | Except.ok tbl2 => (tbl2, SignupOutcome.created)
    | Except.error _ => (tbl, SignupOutcome.alreadyExists)

/-- The Login button credential check (app.py lines 843-850):
`SELECT … WHERE username=?` / `fetchone()` returns the first matching
row in insertion order, and the login succeeds when the row exists and
`check_hash` accepts. -/
def loginCheck (tbl : List UserRow) (username password : String) : Bool :=
  match tbl.find? (fun row => row.username == username) with
  | some row => check_hash password row.password
  | none => false

/-!
## Helper lemmas
-/

theorem mem_expansionCandidates {a : RecArgs} {row : TaskRow}
    (hrow : row ∈ expansionCandidates a) :
    ∃ r u p, a.recurrence = some r ∧ a.recurrence_until = some u ∧
      p ∈ expandPairs r u a.start_date a.end_date ∧ row = mkRecRow a p := by
  unfold expansionCandidates at hrow
  cases hr : a.recurrence with
  | none => rw [hr] at hrow; cases hrow
  | some r =>
    cases hu : a.recurrence_until with
    | none => rw [hr, hu] at hrow; cases hrow
    | some u =>
      rw [hr, hu] at hrow
      obtain ⟨p, hp, rfl⟩ := List.mem_map.mp hrow
      exact ⟨r, u, p, rfl, rfl, hp, rfl⟩

theorem aggOf_some_spec {df : List TaskRow} {today : Date} {m : Metrics}
    (h : aggOf df today = some m) :
    m.efficiencyScore =
      max 0 (round2 (0.4 * m.completionRate + 0.25 * m.ontimeRate +
        0.2 * m.avgProgress - 0.15 * m.overdueRate)) ∧
    m.totalTasks = df.length ∧ 0 < m.totalTasks ∧
    m.completionRate = (m.completed : ℚ) / m.totalTasks * 100 ∧
    m.overdueRate = (m.overdue : ℚ) / m.totalTasks * 100 ∧
    m.ontimeRate =
      ((((df.filter (fun t => t.status == "Completed")).filter
          (fun t => decide (Date.le t.start_date t.end_date))).length : ℚ) /
        m.totalTasks) * 100 ∧
    m.avgProgress = ((df.map (fun t => (t.progress : ℚ))).sum) / m.totalTasks ∧
    m.completed = (df.filter (fun t => t.status == "Completed")).length ∧
    m.overdue = (df.filter (fun t =>
      t.status != "Completed" && decide (Date.lt t.end_date today))).length := by
  unfold aggOf at h
  by_cases he : df.isEmpty
  · rw [if_pos he] at h; cases h
  · rw [if_neg he] at h
    have hpos : 0 < df.length := by
      cases df with
      | nil => simp at he
      | cons x xs => simp
    injection h with h
    subst h
    refine ⟨rfl, rfl, hpos, ?_, ?_, ?_, ?_, rfl, rfl⟩ <;>
      dsimp only <;> rw [if_pos hpos]

theorem aggOf_perm {df1 df2 : List TaskRow} (h : df1.Perm df2) (today : Date) :
    aggOf df1 today = aggOf df2 today := by
  have hlen : df1.length = df2.length := h.length_eq
  have hc :
      (df1.filter (fun t => t.status == "Completed")).length =
        (df2.filter (fun t => t.status == "Completed")).length :=
    (h.filter _).length_eq
  have hov :
      (df1.filter (fun t =>
        t.status != "Completed" && decide (Date.lt t.end_date today))).length =
      (df2.filter (fun t =>
        t.status != "Completed" && decide (Date.lt t.end_date today))).length :=
    (h.filter _).length_eq
  have hhp :
      (df1.filter (fun t => t.priority == "High")).length =
        (df2.filter (fun t => t.priority == "High")).length :=
    (h.filter _).length_eq
  have hot :
      ((df1.filter (fun t => t.status == "Completed")).filter
        (fun t => decide (Date.le t.start_date t.end_date))).length =
      ((df2.filter (fun t => t.status == "Completed")).filter
        (fun t => decide (Date.le t.start_date t.end_date))).length :=
    ((h.filter _).filter _).length_eq
  have hsum :
      (df1.map (fun t => (t.progress : ℚ))).sum =
        (df2.map (fun t => (t.progress : ℚ))).sum :=
    (h.map _).sum_eq
  cases hd1 : df1 with
  | nil =>
    subst hd1
    have : df2 = [] := h.nil_eq.symm
    subst this
    rfl
  | cons x xs =>
    have hne1 : ¬ df1.isEmpty = true := by rw [hd1]; simp
    have hne2 : ¬ df2.isEmpty = true := by
      have : 0 < df2.length := by rw [← hlen, hd1]; simp
      cases df2 with
      | nil => simp at this
      | cons y ys => simp
    rw [← hd1]
    unfold aggOf
    rw [if_neg hne1, if_neg hne2]
    simp only [hlen, hc, hov, hhp, hot, hsum]

/-!
## Concrete scenarios
-/

/-- The seed of end-to-end scenario 1: start 2024-01-01, end 2024-01-02,
Weekly recurrence until 2024-01-22 (the other fields are arbitrary but
deliberately non-default to exercise the copying). -/
def c1Args : RecArgs :=
  { task := "Weekly report", assigned_to := "alice", given_by := "bob",
    priority := "High", status := "In Progress",
    start_date := ⟨2024, 1, 1⟩, end_date := ⟨2024, 1, 2⟩,
    progress := 40, comments := "seed",
    recurrence := some Rule.Weekly,
    recurrence_until := some ⟨2024, 1, 22⟩,
    series_id := some 7, category := "Work", tags := some "w",
    estimated_hours := 2 }

/-- The first generated row of scenario 1. -/
def c3Row : TaskRow := mkRecRow c1Args (⟨2024, 1, 8⟩, ⟨2024, 1, 9⟩)

/-!
## Claims
-/

/-- C1: the Recurrence Expander's loop computes exactly the maximal
candidate sequence the claim describes — for the Weekly scenario the
start dates 2024-01-08, 2024-01-15, 2024-01-22 and nothing later — but
its `INSERT` statement names 15 columns while supplying only 14 `?`
placeholders, so SQLite rejects every insert and the function persists
zero rows, aborting with an operational error: the claimed emission
never happens at runtime. -/
theorem c1_expander_scenario_insert_arity :
    (expandPairs Rule.Weekly ⟨2024, 1, 22⟩ ⟨2024, 1, 1⟩ ⟨2024, 1, 2⟩).map
        Prod.fst = [⟨2024, 1, 8⟩, ⟨2024, 1, 15⟩, ⟨2024, 1, 22⟩] ∧
    taskInsertColumns.length = 15 ∧
    taskInsertPlaceholders = 14 ∧
    auto_populate_recurrences c1Args =
      ([], some "14 values for 15 columns") := by
  decide

/-- C3: every row the Recurrence Expander generates has status
"Not Started" and progress 0, whatever the seed's status and progress
were, and every column other than the start/end dates is copied
unchanged from the seed's arguments. -/
theorem c3_generated_rows_reset (a : RecArgs) (row : TaskRow)
    (hrow : row ∈ expansionCandidates a) :
    row.status = "Not Started" ∧ row.progress = 0 ∧
    row.task = a.task ∧ row.assigned_to = a.assigned_to ∧
    row.given_by = a.given_by ∧ row.priority = a.priority ∧
    row.comments = a.comments ∧ row.recurrence = a.recurrence ∧
    row.recurrence_until = a.recurrence_until ∧
    row.series_id = a.series_id ∧ row.category = a.category ∧
    row.tags = a.tags ∧ row.estimated_hours = a.estimated_hours := by
  obtain ⟨r, u, p, hr, hu, hp, rfl⟩ := mem_expansionCandidates hrow
  exact ⟨rfl, rfl, rfl, rfl, rfl, rfl, rfl, rfl, rfl, rfl, rfl, rfl, rfl⟩

/-- Witness for C3: the first generated row of the Weekly scenario,
whose seed has status "In Progress" and progress 40. -/
theorem c3_generated_rows_reset_witness :
    c3Row ∈ expansionCandidates c1Args ∧
    (c3Row.status = "Not Started" ∧ c3Row.progress = 0 ∧
    c3Row.task = c1Args.task ∧ c3Row.assigned_to = c1Args.assigned_to ∧
    c3Row.given_by = c1Args.given_by ∧ c3Row.priority = c1Args.priority ∧
    c3Row.comments = c1Args.comments ∧ c3Row.recurrence = c1Args.recurrence ∧
    c3Row.recurrence_until = c1Args.recurrence_until ∧
    c3Row.series_id = c1Args.series_id ∧ c3Row.category = c1Args.category ∧
    c3Row.tags = c1Args.tags ∧
    c3Row.estimated_hours = c1Args.estimated_hours) :=
  ⟨by decide, c3_generated_rows_reset c1Args c3Row (by decide)⟩

/-- C4: `series_id` is NULL for a non-recurring creation; a recurring
creation draws one fresh identifier (`uuid.uuid4()`, modelled as a fresh
number no existing row carries) and the seed row together with every row
the expander generates from it carry exactly that identifier, which no
row outside the series carries. -/
theorem c4_series_id_invariant (username : String) (f : FormInput)
    (fresh : Nat) (existing : List TaskRow)
    (hfresh : ∀ row ∈ existing, row.series_id ≠ some fresh) :
    (f.recurrence = none →
      seriesIdFor f fresh = none ∧
      (mkSeedRow username f (seriesIdFor f fresh)).series_id = none) ∧
    (∀ r0, f.recurrence = some r0 →
      seriesIdFor f fresh = some fresh ∧
      (∀ row ∈ createdSeriesRows username f (seriesIdFor f fresh),
        row.series_id = some fresh) ∧
      (∀ row ∈ existing, row.series_id ≠ some fresh)) := by
  constructor
  · intro hnone
    have hsid : seriesIdFor f fresh = none := by
      unfold seriesIdFor; rw [hnone]
    exact ⟨hsid, by rw [show (mkSeedRow username f
      (seriesIdFor f fresh)).series_id = seriesIdFor f fresh from rfl, hsid]⟩
  · intro r0 hr
    have hsid : seriesIdFor f fresh = some fresh := by
      unfold seriesIdFor; rw [hr]
    refine ⟨hsid, ?_, hfresh⟩
    intro row hrow
    rcases List.mem_cons.mp hrow with hhead | hmem
    · rw [hhead]
      exact hsid
    · obtain ⟨r1, u1, p, hr1, hu1, hp, rfl⟩ := mem_expansionCandidates hmem
      exact hsid

/-- The form input used by the C4 witness. -/
def c4Form : FormInput :=
  { task := "Standup", given_by := "bob", category := "Work",
    tags := none, priority := "Medium", status := "Not Started",
    start_date := ⟨2024, 3, 1⟩, end_date := ⟨2024, 3, 1⟩,
    progress := 0, estimated_hours := 1, comments := "",
    recurrence := some Rule.Daily,
    recurrence_until := some ⟨2024, 3, 4⟩ }

/-- A pre-existing table row carrying a different series identifier. -/
def c4Existing : List TaskRow :=
  [{ task := "Old", assigned_to := "carol", given_by := "", priority := "Low",
     status := "Completed", start_date := ⟨2023, 5, 1⟩,
     end_date := ⟨2023, 5, 2⟩, progress := 100, comments := "",
     recurrence := some Rule.Weekly, recurrence_until := some ⟨2023, 6, 1⟩,
     series_id := some 3, category := "Work", tags := none,
     estimated_hours := 1 }]

/-- Witness for C4: a Daily series created against a table holding one
row of another series. -/
theorem c4_series_id_invariant_witness :
    (∀ row ∈ c4Existing, row.series_id ≠ some 5) ∧
    seriesIdFor c4Form 5 = some 5 ∧
    (∀ row ∈ createdSeriesRows "alice" c4Form (seriesIdFor c4Form 5),
      row.series_id = some 5) :=
  ⟨by decide,
   ((c4_series_id_invariant "alice" c4Form 5 c4Existing (by decide)).2
      Rule.Daily rfl).1,
   ((c4_series_id_invariant "alice" c4Form 5 c4Existing (by decide)).2
      Rule.Daily rfl).2.1⟩

/-- C6: the expansion loop terminates — each rule's step strictly
advances the start date, so any fuel of at least `gapFuel` makes the
loop reach its break with the same finite output — and a cutoff earlier
than the seed start yields zero generated rows immediately. -/
theorem c6_expander_terminates :
    (∀ (r : Rule) (d : Date), Date.lt d (stepDate r d)) ∧
    (∀ (r : Rule) (u s e : Date), s.Valid → ∀ f, gapFuel u s ≤ f →
      expandLoopF r u f s e = expandPairs r u s e) ∧
    (∀ (r : Rule) (u s e : Date), Date.lt u s → expandPairs r u s e = []) := by
  refine ⟨stepDate_lt, ?_, ?_⟩
  · intro r u s e hs f hf
    exact expandLoopF_fuel_eq r f (gapFuel u s) s e hs hf (le_refl _)
  · intro r u s e hus
    have hnle : ¬ Date.le (stepDate r s) u :=
      Date.not_le_of_lt (Date.lt_trans hus (stepDate_lt r s))
    unfold expandPairs
    cases hg : gapFuel u s with
    | zero => rfl
    | succ n => simp [expandLoopF, hnle]

/-- Witness for C6: a Monthly expansion with surplus fuel agrees with
`expandPairs`, and a Daily expansion whose cutoff precedes the seed is
empty. -/
theorem c6_expander_terminates_witness :
    (⟨2024, 1, 31⟩ : Date).Valid ∧
    gapFuel ⟨2024, 3, 31⟩ ⟨2024, 1, 31⟩ ≤ 200 ∧
    expandLoopF Rule.Monthly ⟨2024, 3, 31⟩ 200 ⟨2024, 1, 31⟩ ⟨2024, 1, 31⟩ =
      expandPairs Rule.Monthly ⟨2024, 3, 31⟩ ⟨2024, 1, 31⟩ ⟨2024, 1, 31⟩ ∧
    Date.lt ⟨2023, 1, 1⟩ ⟨2024, 1, 1⟩ ∧
    expandPairs Rule.Daily ⟨2023, 1, 1⟩ ⟨2024, 1, 1⟩ ⟨2024, 1, 2⟩ = [] :=
  ⟨by decide, by decide,
   c6_expander_terminates.2.1 Rule.Monthly ⟨2024, 3, 31⟩ ⟨2024, 1, 31⟩
     ⟨2024, 1, 31⟩ (by decide) 200 (by decide),
   by decide,
   c6_expander_terminates.2.2 Rule.Daily ⟨2023, 1, 1⟩ ⟨2024, 1, 1⟩
     ⟨2024, 1, 2⟩ (by decide)⟩

/-- A scenario-2 task for user alice with progress 55. -/
def scenTask (st : String) (s e : Date) : TaskRow :=
  { task := "t", assigned_to := "alice", given_by := "", priority := "Medium",
    status := st, start_date := s, end_date := e, progress := 55,
    comments := "", recurrence := none, recurrence_until := none,
    series_id := none, category := "Work", tags := none,
    estimated_hours := 1 }

/-- End-to-end scenario 2 (evaluated at today = 2024-06-15): ten tasks,
six completed of which five have end ≥ start (on time), two of the
remaining four overdue, all progresses 55. -/
def scenDb : List TaskRow :=
  [scenTask "Completed" ⟨2024, 1, 1⟩ ⟨2024, 1, 5⟩,
   scenTask "Completed" ⟨2024, 1, 2⟩ ⟨2024, 1, 6⟩,
   scenTask "Completed" ⟨2024, 1, 3⟩ ⟨2024, 1, 7⟩,
   scenTask "Completed" ⟨2024, 1, 4⟩ ⟨2024, 1, 8⟩,
   scenTask "Completed" ⟨2024, 1, 5⟩ ⟨2024, 1, 9⟩,
   scenTask "Completed" ⟨2024, 1, 10⟩ ⟨2024, 1, 2⟩,
   scenTask "In Progress" ⟨2024, 1, 1⟩ ⟨2024, 2, 1⟩,
   scenTask "Not Started" ⟨2024, 1, 1⟩ ⟨2024, 2, 2⟩,
   scenTask "In Progress" ⟨2024, 6, 1⟩ ⟨2024, 7, 1⟩,
   scenTask "Not Started" ⟨2024, 6, 1⟩ ⟨2024, 7, 2⟩]

/-- The metrics of scenario 2. -/
def scenMetrics : Metrics :=
  { totalTasks := 10, completed := 6, overdue := 2, highPriority := 0,
    completionRate := 60, ontimeRate := 50, overdueRate := 20,
    avgProgress := 55, efficiencyScore := 89 / 2 }

/-- C2: the aggregator's efficiency score is
round(0.4·completion_rate + 0.25·ontime_rate + 0.2·avg_progress −
0.15·overdue_rate, 2) clamped below at 0, with the rates equal to the
respective counts over the total times 100; for scenario 2 (10 tasks,
6 completed, 5 on time, 2 overdue, average progress 55) the score is
44.5. -/
theorem c2_efficiency_formula :
    (∀ (db : List TaskRow) (u : Option String) (today : Date) (m : Metrics),
      compute_scores db u today = some m →
      m.efficiencyScore =
        max 0 (round2 (0.4 * m.completionRate + 0.25 * m.ontimeRate +
          0.2 * m.avgProgress - 0.15 * m.overdueRate)) ∧
      m.completionRate = (m.completed : ℚ) / m.totalTasks * 100 ∧
      m.overdueRate = (m.overdue : ℚ) / m.totalTasks * 100 ∧
      m.ontimeRate =
        ((((filterOf db u).filter (fun t => t.status == "Completed")).filter
            (fun t => decide (Date.le t.start_date t.end_date))).length : ℚ) /
          m.totalTasks * 100) ∧
    (compute_scores scenDb (some "alice") ⟨2024, 6, 15⟩ = some scenMetrics ∧
      scenMetrics.efficiencyScore = 89 / 2) := by
  constructor
  · intro db u today m h
    unfold compute_scores at h
    have hs := aggOf_some_spec h
    exact ⟨hs.1, hs.2.2.2.1, hs.2.2.2.2.1, hs.2.2.2.2.2.1⟩
  · constructor
    · set_option maxRecDepth 20000 in with_unfolding_all rfl
    · rfl

/-- Witness for C2 at scenario 2. -/
theorem c2_efficiency_formula_witness :
    scenMetrics.efficiencyScore =
      max 0 (round2 (0.4 * scenMetrics.completionRate +
        0.25 * scenMetrics.ontimeRate + 0.2 * scenMetrics.avgProgress -
        0.15 * scenMetrics.overdueRate)) ∧
    scenMetrics.completionRate =
      (scenMetrics.completed : ℚ) / scenMetrics.totalTasks * 100 ∧
    scenMetrics.overdueRate =
      (scenMetrics.overdue : ℚ) / scenMetrics.totalTasks * 100 ∧
    scenMetrics.ontimeRate =
      ((((filterOf scenDb (some "alice")).filter
          (fun t => t.status == "Completed")).filter
          (fun t => decide (Date.le t.start_date t.end_date))).length : ℚ) /
        scenMetrics.totalTasks * 100 :=
  c2_efficiency_formula.1 scenDb (some "alice") ⟨2024, 6, 15⟩ scenMetrics
    c2_efficiency_formula.2.1

/-- A single stale task whose raw weighted score is negative. -/
def negDb : List TaskRow :=
  [{ task := "stale", assigned_to := "alice", given_by := "",
     priority := "Low", status := "Not Started",
     start_date := ⟨2024, 1, 1⟩, end_date := ⟨2024, 1, 10⟩, progress := 0,
     comments := "", recurrence := none, recurrence_until := none,
     series_id := none, category := "Work", tags := none,
     estimated_hours := 1 }]

/-- The metrics of `negDb` at 2024-06-15: the raw formula gives −15,
clamped to 0. -/
def negMetrics : Metrics :=
  { totalTasks := 1, completed := 0, overdue := 1, highPriority := 0,
    completionRate := 0, ontimeRate := 0, overdueRate := 100,
    avgProgress := 0, efficiencyScore := 0 }

/-- C5: the aggregator returns none on an empty task set, and on any
non-empty set the efficiency score is ≥ 0 — the `max(0, score)` clamp —
even when the raw weighted formula is negative, as for `negDb` where it
evaluates to −15 and the returned score is 0. -/
theorem c5_empty_none_score_nonneg :
    (∀ (u : Option String) (today : Date), compute_scores [] u today = none) ∧
    (∀ (db : List TaskRow) (u : Option String) (today : Date) (m : Metrics),
      compute_scores db u today = some m → 0 ≤ m.efficiencyScore) ∧
    (compute_scores negDb none ⟨2024, 6, 15⟩ = some negMetrics ∧
      round2 (0.4 * negMetrics.completionRate + 0.25 * negMetrics.ontimeRate +
        0.2 * negMetrics.avgProgress - 0.15 * negMetrics.overdueRate) = -15 ∧
      (-15 : ℚ) < 0 ∧ negMetrics.efficiencyScore = 0) := by
  refine ⟨?_, ?_, ?_, ?_, ?_, ?_⟩
  · intro u today
    cases u with
    | none => rfl
    | some x => rfl
  · intro db u today m h
    unfold compute_scores at h
    have hs := aggOf_some_spec h
    rw [hs.1]
    exact le_max_left 0 _
  · with_unfolding_all rfl
  · with_unfolding_all rfl
  · norm_num
  · rfl

/-- Witness for C5 on the single-task table with negative raw score. -/
theorem c5_empty_none_score_nonneg_witness :
    compute_scores negDb none ⟨2024, 6, 15⟩ = some negMetrics ∧
    0 ≤ negMetrics.efficiencyScore :=
  ⟨c5_empty_none_score_nonneg.2.2.1,
   c5_empty_none_score_nonneg.2.1 negDb none ⟨2024, 6, 15⟩ negMetrics
     c5_empty_none_score_nonneg.2.2.1⟩

/-- An in-progress task due 2024-01-10, used to exhibit the
clock-dependence of the aggregator. -/
def clockTask : TaskRow :=
  { task := "due soon", assigned_to := "alice", given_by := "",
    priority := "Low", status := "In Progress",
    start_date := ⟨2024, 1, 1⟩, end_date := ⟨2024, 1, 10⟩, progress := 0,
    comments := "", recurrence := none, recurrence_until := none,
    series_id := none, category := "Work", tags := none,
    estimated_hours := 1 }

/-- Metrics of `[clockTask]` evaluated on 2024-01-05 (not yet overdue). -/
def clockEarlyM : Metrics :=
  { totalTasks := 1, completed := 0, overdue := 0, highPriority := 0,
    completionRate := 0, ontimeRate := 0, overdueRate := 0,
    avgProgress := 0, efficiencyScore := 0 }

/-- Metrics of `[clockTask]` evaluated on 2024-02-01 (now overdue). -/
def clockLateM : Metrics :=
  { totalTasks := 1, completed := 0, overdue := 1, highPriority := 0,
    completionRate := 0, ontimeRate := 0, overdueRate := 100,
    avgProgress := 0, efficiencyScore := 0 }

/-- C7 counterexample: the aggregator is not a function of the task set
alone — `compute_scores` reads the wall clock
(`pd.to_datetime("today")`), so the identical unchanged task set
produces different metrics (here a different overdue count) when the
two invocations happen on different days. -/
theorem c7_clock_dependence_counterexample :
    compute_scores [clockTask] none ⟨2024, 1, 5⟩ = some clockEarlyM ∧
    compute_scores [clockTask] none ⟨2024, 2, 1⟩ = some clockLateM ∧
    clockEarlyM.overdue ≠ clockLateM.overdue ∧
    clockEarlyM ≠ clockLateM := by
  refine ⟨?_, ?_, by decide, by decide⟩
  · with_unfolding_all rfl
  · with_unfolding_all rfl

/-- C7 (amended): the aggregator is a pure function of the task set,
the username filter and the evaluation date: two invocations with
identical inputs, at the same evaluation date, return identical
metrics. -/
theorem c7_deterministic_at_fixed_date (db1 db2 : List TaskRow)
    (u1 u2 : Option String) (t1 t2 : Date)
    (hdb : db1 = db2) (hu : u1 = u2) (ht : t1 = t2) :
    compute_scores db1 u1 t1 = compute_scores db2 u2 t2 := by
  rw [hdb, hu, ht]

/-- Witness for the amended C7. -/
theorem c7_deterministic_at_fixed_date_witness :
    [clockTask] = [clockTask] ∧ (none : Option String) = none ∧
    (⟨2024, 1, 5⟩ : Date) = ⟨2024, 1, 5⟩ ∧
    compute_scores [clockTask] none ⟨2024, 1, 5⟩ =
      compute_scores [clockTask] none ⟨2024, 1, 5⟩ :=
  ⟨rfl, rfl, rfl,
   c7_deterministic_at_fixed_date [clockTask] [clockTask] none none
     ⟨2024, 1, 5⟩ ⟨2024, 1, 5⟩ rfl rfl rfl⟩

/-- C8: the aggregator is order-independent — permuting the input task
sequence leaves every returned metric unchanged. -/
theorem c8_order_independence (db1 db2 : List TaskRow) (u : Option String)
    (today : Date) (hperm : db1.Perm db2) :
    compute_scores db1 u today = compute_scores db2 u today := by
  unfold compute_scores
  apply aggOf_perm _ today
  cases u with
  | none => exact hperm
  | some x => exact hperm.filter _

/-- Two-task table and its reversal for the C8 witness. -/
def permDb1 : List TaskRow :=
  [scenTask "Completed" ⟨2024, 1, 1⟩ ⟨2024, 1, 5⟩,
   scenTask "Not Started" ⟨2024, 6, 1⟩ ⟨2024, 7, 2⟩]

def permDb2 : List TaskRow :=
  [scenTask "Not Started" ⟨2024, 6, 1⟩ ⟨2024, 7, 2⟩,
   scenTask "Completed" ⟨2024, 1, 1⟩ ⟨2024, 1, 5⟩]

/-- Witness for C8 on a two-element permutation. -/
theorem c8_order_independence_witness :
    permDb1.Perm permDb2 ∧
    compute_scores permDb1 none ⟨2024, 6, 15⟩ =
      compute_scores permDb2 none ⟨2024, 6, 15⟩ :=
  ⟨List.Perm.swap _ _ _,
   c8_order_independence permDb1 permDb2 none ⟨2024, 6, 15⟩
     (List.Perm.swap _ _ _)⟩

/-- C9: a signup attempt (with a password supplied) for a username that
already exists surfaces the "already exists" conflict outcome and leaves
the user table exactly as it was — no account is created. -/
theorem c9_duplicate_username_signup (tbl : List UserRow) (u p r : String)
    (hu : u ≠ "") (hp : p ≠ "")
    (hex : ∃ row ∈ tbl, row.username = u) :
    signup tbl u p r = (tbl, SignupOutcome.alreadyExists) := by
  unfold signup
  have hcond : ¬ (u = "" ∨ p = "") := by
    rintro (h | h)
    · exact hu h
    · exact hp h
  rw [if_neg hcond]
  have hany : tbl.any (fun row => row.username == u) = true := by
    rcases hex with ⟨row, hm, he⟩
    exact List.any_eq_true.mpr ⟨row, hm, by rw [he]; exact beq_self_eq_true u⟩
  unfold usersInsert
  rw [if_pos hany]

/-- The bootstrap user table for the C9 witness. -/
def c9Tbl : List UserRow :=
  [{ username := "admin", password := make_hash "admin123",
     role := "admin" }]

/-- Witness for C9: signing up as the existing "admin". -/
theorem c9_duplicate_username_signup_witness :
    "admin" ≠ "" ∧ "pw" ≠ "" ∧ (∃ row ∈ c9Tbl, row.username = "admin") ∧
    signup c9Tbl "admin" "pw" "user" = (c9Tbl, SignupOutcome.alreadyExists) :=
  ⟨by decide, by decide, by decide,
   c9_duplicate_username_signup c9Tbl "admin" "pw" "user"
     (by decide) (by decide) (by decide)⟩

set_option maxRecDepth 20000 in
/-- SHA-256 test vector (FIPS 180-4): digest of "abc". -/
theorem sha256_vector_abc :
    make_hash "abc" =
      "ba7816bf8f01cfea414140de5dae2223b00361a396177a9cb410ff61f20015ad" := by
  decide

set_option maxRecDepth 20000 in
/-- SHA-256 test vector: digest of the empty string. -/
theorem sha256_vector_empty :
    make_hash "" =
      "e3b0c44298fc1c149afbf4c8996fb92427ae41e4649b934ca495991b7852b855" := by
  decide

set_option maxRecDepth 20000 in
/-- The bootstrap admin password hash (app.py line 125), cross-checked
against `hashlib.sha256(b"admin123").hexdigest()`. -/
theorem sha256_vector_admin123 :
    make_hash "admin123" =
      "240be518fabd2724ddb6f04eeb1da5967448d7e831c08c8fa822809f74c720a9" := by
  decide

theorem find?_append_of_none {p : UserRow → Bool} {l1 : List UserRow}
    (l2 : List UserRow) (h : ∀ x ∈ l1, p x = false) :
    (l1 ++ l2).find? p = l2.find? p := by
  induction l1 with
  | nil => rfl
  | cons a as ih =>
    have ha : p a = false := h a (List.mem_cons_self a as)
    rw [List.cons_append, List.find?_cons_of_neg _ (by rw [ha]; exact fun f => nomatch f)]
    exact ih (fun x hx => h x (List.mem_cons_of_mem a hx))

/-- C10: `check_hash(p, make_hash(p))` always holds; `check_hash(p, h)`
holds exactly when the stored hash `h` is the SHA-256 hex digest of the
UTF-8 bytes of `p`; and a login with the password used at a successful
signup always passes the credential check. -/
theorem c10_hash_roundtrip :
    (∀ p : String, check_hash p (make_hash p) = true) ∧
    (∀ p h : String, check_hash p h = true ↔ h = sha256Hex (utf8Bytes p)) ∧
    (∀ (tbl tbl2 : List UserRow) (u p r : String),
      signup tbl u p r = (tbl2, SignupOutcome.created) →
      loginCheck tbl2 u p = true) := by
  refine ⟨?_, ?_, ?_⟩
  · intro p
    exact beq_self_eq_true (make_hash p)
  · intro p h
    constructor
    · intro hc
      exact (eq_of_beq hc).symm
    · intro hh
      subst hh
      exact beq_self_eq_true (make_hash p)
  · intro tbl tbl2 u p r hsign
    unfold signup at hsign
    by_cases h0 : u = "" ∨ p = ""
    · rw [if_pos h0] at hsign
      exact SignupOutcome.noConfusion (congrArg Prod.snd hsign)
    · rw [if_neg h0] at hsign
      unfold usersInsert at hsign
      by_cases hany : tbl.any (fun row => row.username == u) = true
      · rw [if_pos hany] at hsign
        exact SignupOutcome.noConfusion (congrArg Prod.snd hsign)
      · rw [if_neg hany] at hsign
        have htbl2 : tbl2 =
            tbl ++ [{ username := u, password := make_hash p, role := r }] :=
          (congrArg Prod.fst hsign).symm
        subst htbl2
        unfold loginCheck
        have hnone : ∀ x ∈ tbl, (x.username == u) = false := by
          intro x hx
          cases hb : (x.username == u) with
          | false => rfl
          | true => exact absurd (List.any_eq_true.mpr ⟨x, hx, hb⟩) hany
        rw [find?_append_of_none _ hnone]
        simp only [List.find?, beq_self_eq_true, check_hash]

/-- Witness for C10: a fresh signup of "alice" followed by a login with
the same password. -/
theorem c10_hash_roundtrip_witness :
    signup [] "alice" "pw1" "user" =
      ([{ username := "alice", password := make_hash "pw1",
          role := "user" }], SignupOutcome.created) ∧
    loginCheck
      [{ username := "alice", password := make_hash "pw1", role := "user" }]
      "alice" "pw1" = true :=
  ⟨rfl,
   c10_hash_roundtrip.2.2 []
     [{ username := "alice", password := make_hash "pw1", role := "user" }]
     "alice" "pw1" "user" rfl⟩
